import Mathlib

/-!
Formal model of the FareLens backend storage layer: a shallow embedding of
`backend/app/services/inmemory_provider.py`, the abstract contract
`backend/app/services/data_provider.py`, the record shapes of
`backend/app/models/schemas.py`, and the alert-history route of
`backend/app/api/alerts.py`.

Modelling conventions:
* Python `UUID` values are modelled as `Nat` identifiers.
* Python `datetime` values are modelled as `Int` instants; only ordering matters.
* Python `float` prices are modelled as `Int` (no verified operation computes with them).
* Python `dict` objects are modelled as insertion-ordered association lists, mirroring
  the ordered-dict semantics the in-memory provider relies on.
* `uuid4()` and `datetime.now(timezone.utc)` are nondeterministic at the call site, so
  operations take the fresh id / current instant as explicit arguments.
-/

namespace FareLens

/-- Python dict lookup `d.get(k)`: the binding of the key, if present. -/
def dictGet (k : Nat) (d : List (Nat × α)) : Option α :=
  (d.find? (fun p => p.1 == k)).map Prod.snd

/-- Python dict assignment `d[k] = v`: an existing key is updated in place, keeping its
position in the insertion order; a new key is appended at the end. -/
def dictSet (k : Nat) (v : α) : List (Nat × α) → List (Nat × α)
  | [] => [(k, v)]
  | (k', v') :: t => if k' == k then (k, v) :: t else (k', v') :: dictSet k v t

/-- Python `d.pop(k)`: removal of the key's binding. -/
def dictPop (k : Nat) (d : List (Nat × α)) : List (Nat × α) :=
  d.filter (fun p => !(p.1 == k))

/-- The keys of a dict, in insertion order. -/
def dictKeys (d : List (Nat × α)) : List Nat :=
  d.map Prod.fst

/-- Python `sorted(l, key=key, reverse=True)`: a stable descending sort. Python's sort is
stable, and `List.insertionSort` is stable, so the two agree element for element. -/
def sortDescBy (key : α → Int) (l : List α) : List α :=
  l.insertionSort (fun a b => key b ≤ key a)

/-- Python list slicing `l[start:stop]` for integer bounds: negative indices count from the
end, and both bounds are clamped to the list. -/
def pySlice (l : List α) (start stop : Int) : List α :=
  let n : Int := l.length
  let s := if start < 0 then max (n + start) 0 else min start n
  let e := if stop < 0 then max (n + stop) 0 else min stop n
  (l.take e.toNat).drop s.toNat

/-! ### Record shapes (`backend/app/models/schemas.py`) -/

/-- `schemas.FlightDeal`. -/
structure FlightDeal where
  id : Nat
  origin : String
  destination : String
  departure_date : Int
  return_date : Int
  total_price : Int
  currency : String
  deal_score : Int
  discount_percent : Int
  normal_price : Int
  created_at : Int
  expires_at : Int
  airline : String
  stops : Int
  return_stops : Option Int := none
  deep_link : String
deriving DecidableEq, Repr

/-- `schemas.Watchlist` as it exists at runtime. The pydantic schema declares `name`,
`origin`, `destination` as `str` and `is_active` as `bool` (none nullable), but
`model_copy` performs no validation, so the runtime attribute can hold `None`; the fields
are therefore `Option`-typed here, with `Watchlist.schemaValid` recording the schema's
requirement. -/
structure Watchlist where
  id : Nat
  user_id : Nat
  name : Option String
  origin : Option String
  destination : Option String
  date_range_start : Option Int := none
  date_range_end : Option Int := none
  max_price : Option Int := none
  is_active : Option Bool
  created_at : Int
  updated_at : Int
deriving DecidableEq, Repr

/-- The non-null requirements the pydantic `Watchlist` schema places on its required
fields (`name : str`, `origin : str`, `destination : str`, `is_active : bool`). -/
def Watchlist.schemaValid (w : Watchlist) : Prop :=
  w.name.isSome ∧ w.origin.isSome ∧ w.destination.isSome ∧ w.is_active.isSome

instance (w : Watchlist) : Decidable w.schemaValid := by
  unfold Watchlist.schemaValid; infer_instance

/-- `schemas.WatchlistCreate` after request validation (required `name`, `origin`,
`destination`; optional date range and max price; `is_active` defaulted). -/
structure WatchlistCreate where
  name : String
  origin : String
  destination : String
  date_range_start : Option Int := none
  date_range_end : Option Int := none
  max_price : Option Int := none
  is_active : Bool := true
deriving DecidableEq, Repr

/-- `schemas.WatchlistUpdate`: every field is optional, and pydantic distinguishes a field
absent from the payload from one explicitly set (possibly to null). Each field is
`none` when absent from the payload, `some none` when explicitly null, and
`some (some v)` when carrying the value `v`. -/
structure WatchlistUpdate where
  name : Option (Option String) := none
  origin : Option (Option String) := none
  destination : Option (Option String) := none
  date_range_start : Option (Option Int) := none
  date_range_end : Option (Option Int) := none
  max_price : Option (Option Int) := none
  is_active : Option (Option Bool) := none
deriving DecidableEq, Repr

/-- `schemas.AlertPreferences`, defaults included. -/
structure AlertPreferences where
  enabled : Bool := true
  quiet_hours_enabled : Bool := true
  quiet_hours_start : Int := 22
  quiet_hours_end : Int := 7
  watchlist_only_mode : Bool := false
deriving DecidableEq, Repr

/-- `AlertPreferences()`: the record built from the schema defaults alone. -/
def defaultAlertPreferences : AlertPreferences := {}

/-- `schemas.AlertHistory`. -/
structure AlertHistory where
  id : Nat
  deal : FlightDeal
  sent_at : Int
  opened_at : Option Int := none
  clicked_through : Option Bool := none
  expires_at : Option Int := none
deriving DecidableEq, Repr

/-! ### In-memory provider state and operations
(`backend/app/services/inmemory_provider.py`) -/

/-- The mutable maps of `InMemoryProvider.__init__` touched by the verified operations:
`_watchlists` keyed by watchlist id, `_alerts` keyed by user id, `_alert_preferences`
keyed by user id, and `device_tokens` keyed by user id then device id. (The source also
holds `_deals` and `_preferred_airports`, which none of the operations below touch.) -/
structure ProviderState where
  watchlists : List (Nat × Watchlist) := []
  alerts : List (Nat × List AlertHistory) := []
  alert_preferences : List (Nat × AlertPreferences) := []
  device_tokens : List (Nat × List (Nat × String)) := []
deriving DecidableEq, Repr

/-- `InMemoryProvider.list_watchlists`: the stored watchlists filtered to the caller's
`user_id`, sorted by `created_at` descending. -/
def list_watchlists (st : ProviderState) (user_id : Nat) : List Watchlist :=
  sortDescBy (fun w => w.created_at)
    ((st.watchlists.map Prod.snd).filter (fun w => w.user_id == user_id))

/-- `InMemoryProvider.create_watchlist`: builds a `Watchlist` with a fresh id, the caller's
`user_id`, uppercased airport codes, and both timestamps set to the current instant, then
stores it under the fresh id. -/
def create_watchlist (st : ProviderState) (user_id : Nat) (payload : WatchlistCreate)
    (fresh_id : Nat) (now : Int) : Watchlist × ProviderState :=
  let w : Watchlist :=
    { id := fresh_id
      user_id := user_id
      name := some payload.name
      origin := some payload.origin.toUpper
      destination := some payload.destination.toUpper
      date_range_start := payload.date_range_start
      date_range_end := payload.date_range_end
      max_price := payload.max_price
      is_active := some payload.is_active
      created_at := now
      updated_at := now }
  (w, { st with watchlists := dictSet fresh_id w st.watchlists })

/-- `payload.model_dump(exclude_unset=True)` merged into the stored watchlist by
`model_copy(update=update_data | ...)`: a field absent from the payload keeps the stored
value, a field present in the payload (even as an explicit null) replaces it, and
`updated_at` is set to the current instant. `model_copy` performs no validation. -/
def applyWatchlistUpdate (w : Watchlist) (p : WatchlistUpdate) (now : Int) : Watchlist :=
  { w with
    name := p.name.getD w.name
    origin := p.origin.getD w.origin
    destination := p.destination.getD w.destination
    date_range_start := p.date_range_start.getD w.date_range_start
    date_range_end := p.date_range_end.getD w.date_range_end
    max_price := p.max_price.getD w.max_price
    is_active := p.is_active.getD w.is_active
    updated_at := now }

/-- `InMemoryProvider.update_watchlist`: raises `KeyError(str(watchlist_id))` when the
watchlist is missing or owned by another user, and otherwise stores and returns the merged
record. The error component models the raised `KeyError`'s payload; an error leaves the
state exactly as it was, matching the source, which raises before mutating. -/
def update_watchlist (st : ProviderState) (user_id watchlist_id : Nat)
    (payload : WatchlistUpdate) (now : Int) : Except String Watchlist × ProviderState :=
  match dictGet watchlist_id st.watchlists with
  | none => (Except.error (toString watchlist_id), st)
  | some w =>
    if w.user_id = user_id then
      let updated := applyWatchlistUpdate w payload now
      (Except.ok updated,
        { st with watchlists := dictSet watchlist_id updated st.watchlists })
    else (Except.error (toString watchlist_id), st)

/-- `InMemoryProvider.delete_watchlist`: removes the watchlist when it exists and belongs
to the caller, and silently does nothing otherwise. The operation is total — it never
raises. -/
def delete_watchlist (st : ProviderState) (user_id watchlist_id : Nat) : ProviderState :=
  match dictGet watchlist_id st.watchlists with
  | some w =>
    if w.user_id = user_id then
      { st with watchlists := dictPop watchlist_id st.watchlists }
    else st
  | none => st

/-- The ownership-checked lookup both `update_watchlist` and `delete_watchlist` perform:
the stored watchlist under `watchlist_id`, provided it belongs to `user_id`. -/
def ownedLookup (st : ProviderState) (user_id watchlist_id : Nat) : Option Watchlist :=
  match dictGet watchlist_id st.watchlists with
  | some w => if w.user_id = user_id then some w else none
  | none => none

/-- `InMemoryProvider.list_alert_history`: the caller's alerts sorted by `sent_at`
descending, sliced Python-style at `[(page-1)*per_page : (page-1)*per_page + per_page]`,
returned together with the total count of the caller's alerts. -/
def list_alert_history (st : ProviderState) (user_id : Nat) (page per_page : Int) :
    List AlertHistory × Nat :=
  let user_alerts := (dictGet user_id st.alerts).getD []
  let alerts := sortDescBy (fun a => a.sent_at) user_alerts
  let start := (page - 1) * per_page
  (pySlice alerts start (start + per_page), user_alerts.length)

/-- `InMemoryProvider.append_alert`: appends one record to the caller's history. -/
def append_alert (st : ProviderState) (user_id : Nat) (alert : AlertHistory) :
    ProviderState :=
  let cur := (dictGet user_id st.alerts).getD []
  { st with alerts := dictSet user_id (cur ++ [alert]) st.alerts }

/-- `InMemoryProvider.get_alert_preferences`: the stored record, or the schema defaults
when none is stored. The read is a pure lookup — it stores nothing. -/
def get_alert_preferences (st : ProviderState) (user_id : Nat) : AlertPreferences :=
  (dictGet user_id st.alert_preferences).getD defaultAlertPreferences

/-- `InMemoryProvider.update_alert_preferences`: stores the record under the caller's id
and returns it. -/
def update_alert_preferences (st : ProviderState) (user_id : Nat)
    (prefs : AlertPreferences) : AlertPreferences × ProviderState :=
  (prefs, { st with alert_preferences := dictSet user_id prefs st.alert_preferences })

/-- `InMemoryProvider.register_device_token`: stores the token keyed by the caller's id
then the device id. The `platform` argument is accepted but never stored, and no
timestamp of any kind is recorded. -/
def register_device_token (st : ProviderState) (user_id device_id : Nat)
    (token platform : String) : ProviderState :=
  let userMap := (dictGet user_id st.device_tokens).getD []
  { st with device_tokens := dictSet user_id (dictSet device_id token userMap) st.device_tokens }

/-! ### Abstract-contract conformance (`data_provider.py` vs the two backend classes) -/

/-- The methods declared `@abstractmethod` on `DataProvider` (`data_provider.py`). -/
def dataProviderAbstractMethods : List String :=
  ["list_deals", "get_deal", "list_watchlists", "create_watchlist", "update_watchlist",
   "delete_watchlist", "list_alert_history", "append_alert", "get_alert_preferences",
   "update_alert_preferences", "update_preferred_airports", "register_device_token",
   "get_user", "update_user"]

/-- The methods defined by `class InMemoryProvider(DataProvider)`
(`inmemory_provider.py`). -/
def inMemoryProviderMethods : List String :=
  ["__init__", "_seed", "list_deals", "get_deal", "list_watchlists", "create_watchlist",
   "update_watchlist", "delete_watchlist", "list_alert_history", "append_alert",
   "get_alert_preferences", "update_alert_preferences", "update_preferred_airports",
   "register_device_token"]

/-- The methods defined by `class SupabaseProvider(DataProvider)`
(`supabase_provider.py`). -/
def supabaseProviderMethods : List String :=
  ["__init__", "_ensure_pool", "close", "list_deals", "get_deal", "list_watchlists",
   "create_watchlist", "update_watchlist", "delete_watchlist", "list_alert_history",
   "append_alert", "get_alert_preferences", "update_alert_preferences",
   "update_preferred_airports", "register_device_token", "_map_deal", "_map_watchlist",
   "_map_alert"]

/-- Python's ABC machinery: the abstract methods a subclass leaves without an override. -/
def pythonAbstractRemaining (abstractMethods definedMethods : List String) : List String :=
  abstractMethods.filter (fun m => !(definedMethods.contains m))

/-- Python refuses to instantiate a class whose set of non-overridden abstract methods is
non-empty (`TypeError: Can't instantiate abstract class ...`). -/
def pythonCanInstantiate (abstractMethods definedMethods : List String) : Bool :=
  (pythonAbstractRemaining abstractMethods definedMethods).isEmpty

/-! ### Alert-history route (`api/alerts.py`, `get_history`) -/

/-- What the route layer does with a request: reject it with HTTP 422, or invoke the
provider with the given pagination arguments. -/
inductive RouteAction where
  | reject422
  | callProvider (page per_page : Int)
deriving DecidableEq, Repr

/-- `GET /v1/alerts/history` (`api/alerts.py`, `get_history`): the `page` and `per_page`
query parameters are declared as plain `int` with defaults 1 and 20 and carry no `Query`
bounds, so every integer pair is forwarded to `provider.list_alert_history` unchanged;
the route contains no range check that could produce a 422. -/
def get_history_route (page per_page : Int) : RouteAction :=
  RouteAction.callProvider page per_page

/-! ### Concrete example data used by witnesses and counterexamples -/

/-- An empty provider state. -/
def st0 : ProviderState := {}

/-- A stored watchlist owned by user 1 under id 10. -/
def wOwned : Watchlist :=
  { id := 10, user_id := 1, name := some ("LAX to JFK"), origin := some ("LAX"),
    destination := some ("JFK"), max_price := some 500, is_active := some true,
    created_at := 0, updated_at := 0 }

/-- A provider state holding exactly `wOwned`. -/
def stEx : ProviderState := { watchlists := [(10, wOwned)] }

/-- A creation payload. -/
def payloadEx : WatchlistCreate :=
  { name := "Test", origin := "SFO", destination := "CDG", max_price := some 750 }

/-- A partial update touching `max_price` and `is_active` only. -/
def updEx : WatchlistUpdate :=
  { max_price := some (some 700), is_active := some (some false) }

/-- An update payload that explicitly sets `name` to null. -/
def nullNameUpd : WatchlistUpdate := { name := some none }

/-- A flight deal used inside example alerts. -/
def dealEx : FlightDeal :=
  { id := 90, origin := "LAX", destination := "JFK", departure_date := 14, return_date := 21,
    total_price := 420, currency := "USD", deal_score := 94, discount_percent := 35,
    normal_price := 646, created_at := 0, expires_at := 12, airline := "Delta", stops := 0,
    return_stops := some 0, deep_link := "d" }

/-- Example alerts for user 7, appended in the order `aEx1`, `aEx2`, `aEx3`. -/
def aEx1 : AlertHistory := { id := 1, deal := dealEx, sent_at := 5 }

/-- Second example alert (the most recent one). -/
def aEx2 : AlertHistory := { id := 2, deal := dealEx, sent_at := 9 }

/-- Third example alert (the oldest one). -/
def aEx3 : AlertHistory := { id := 3, deal := dealEx, sent_at := 1 }

/-- A provider state in which user 7 has three alerts. -/
def stAl : ProviderState := { alerts := [(7, [aEx1, aEx2, aEx3])] }

/-- Example alert preferences differing from the defaults. -/
def prefsEx : AlertPreferences :=
  { enabled := true, quiet_hours_enabled := false, quiet_hours_start := 21,
    quiet_hours_end := 6, watchlist_only_mode := true }

/-- A second example preferences record, used to overwrite `prefsEx`. -/
def prefsEx2 : AlertPreferences :=
  { enabled := false, quiet_hours_enabled := true, quiet_hours_start := 23,
    quiet_hours_end := 8, watchlist_only_mode := false }

/-! ### Helper lemmas about the dict embedding -/

theorem dictGet_dictSet_self (k : Nat) (v : α) (d : List (Nat × α)) :
    dictGet k (dictSet k v d) = some v := by
  induction d with
  | nil => simp [dictGet, dictSet]
  | cons p t ih =>
    obtain ⟨k', v'⟩ := p
    by_cases h : k' = k
    · simp [dictGet, dictSet, h]
    · simpa [dictGet, dictSet, h, List.find?] using ih

theorem dictGet_dictPop_self (k : Nat) (d : List (Nat × α)) :
    dictGet k (dictPop k d) = none := by
  unfold dictGet
  rw [Option.map_eq_none', List.find?_eq_none]
  intro p hp
  have := List.of_mem_filter hp
  simpa using this

theorem dictKeys_dictSet_dictSet (k : Nat) (v1 v2 : α) (d : List (Nat × α)) :
    dictKeys (dictSet k v2 (dictSet k v1 d)) = dictKeys (dictSet k v1 d) := by
  induction d with
  | nil => simp [dictSet, dictKeys]
  | cons p t ih =>
    obtain ⟨k', v'⟩ := p
    by_cases hk : k' = k
    · simp [dictSet, dictKeys, hk]
    · simpa [dictSet, dictKeys, hk] using ih

/-! ### Helper lemmas about the stable descending sort -/

theorem sortDescBy_perm (key : α → Int) (l : List α) :
    (sortDescBy key l).Perm l :=
  List.perm_insertionSort _ l

theorem sortDescBy_sorted (key : α → Int) (l : List α) :
    (sortDescBy key l).Pairwise (fun a b => key b ≤ key a) := by
  haveI : IsTotal α (fun a b => key b ≤ key a) := ⟨fun a b => Int.le_total (key b) (key a)⟩
  haveI : IsTrans α (fun a b => key b ≤ key a) :=
    ⟨fun _ _ _ h1 h2 => le_trans h2 h1⟩
  exact List.sorted_insertionSort _ l

theorem mem_sortDescBy (key : α → Int) (l : List α) (x : α) :
    x ∈ sortDescBy key l ↔ x ∈ l := by
  unfold sortDescBy
  exact List.mem_insertionSort _

theorem length_sortDescBy (key : α → Int) (l : List α) :
    (sortDescBy key l).length = l.length :=
  (sortDescBy_perm key l).length_eq

/-! ### Helper lemmas about Python slicing -/

theorem pySlice_natCast (l : List α) (s k : Nat) :
    pySlice l (s : Int) ((s : Int) + (k : Int)) = (l.drop s).take k := by
  unfold pySlice
  have hs : ¬ ((s : Int) < 0) := by omega
  have hsk : ¬ ((s : Int) + (k : Int) < 0) := by omega
  simp only [if_neg hs, if_neg hsk]
  have h1 : (min (s : Int) (l.length : Int)).toNat = min s l.length := by
    omega
  have h2 : (min ((s : Int) + (k : Int)) (l.length : Int)).toNat = min (s + k) l.length := by
    omega
  rw [h1, h2]
  rcases le_total s l.length with hle | hle
  · rw [min_eq_left hle]
    rcases le_total (s + k) l.length with hle2 | hle2
    · rw [min_eq_left hle2, List.drop_take]
      congr 1
      omega
    · rw [min_eq_right hle2, List.take_length]
      refine (List.take_of_length_le ?_).symm
      rw [List.length_drop]
      omega
  · have h3 : min s l.length = l.length := min_eq_right hle
    have h4 : min (s + k) l.length = l.length := min_eq_right (by omega)
    rw [h3, h4, List.take_length, List.drop_length,
      List.drop_eq_nil_of_le (by simpa using hle), List.take_nil]

theorem pySlice_stop_zero (l : List α) (start : Int) :
    pySlice l start 0 = [] := by
  unfold pySlice
  have : ¬ ((0 : Int) < 0) := by omega
  simp only [if_neg this]
  have h0 : (min (0 : Int) (l.length : Int)).toNat = 0 := by omega
  rw [h0]
  simp

theorem mem_list_watchlists (st : ProviderState) (u : Nat) (v : Watchlist) :
    v ∈ list_watchlists st u ↔ v ∈ st.watchlists.map Prod.snd ∧ v.user_id = u := by
  unfold list_watchlists
  rw [mem_sortDescBy, List.mem_filter]
  simp

/-! ### Claim theorems -/

/-- C1 (ownership isolation): for users `u1 ≠ u2`, a watchlist created by `u1` never
appears in `u2`'s list; every watchlist listed for `u2` has `user_id = u2`; `u2`'s update
against a watchlist owned by `u1` raises `KeyError` while leaving the stored state
unchanged; and `u2`'s delete against it succeeds (the operation is total) while leaving
the state unchanged. -/
theorem create_update_delete_ownership_isolation
    (st : ProviderState) (u1 u2 : Nat) (hne : u1 ≠ u2)
    (payload : WatchlistCreate) (fid : Nat) (now : Int)
    (wid : Nat) (w : Watchlist) (hw : dictGet wid st.watchlists = some w)
    (hown : w.user_id = u1) (p : WatchlistUpdate) :
    (create_watchlist st u1 payload fid now).1 ∉
        list_watchlists (create_watchlist st u1 payload fid now).2 u2
    ∧ (∀ v ∈ list_watchlists st u2, v.user_id = u2)
    ∧ (update_watchlist st u2 wid p now).1 = Except.error (toString wid)
    ∧ (update_watchlist st u2 wid p now).2 = st
    ∧ delete_watchlist st u2 wid = st := by
  have hneq : w.user_id ≠ u2 := by rw [hown]; exact hne
  refine ⟨?_, ?_, ?_, ?_, ?_⟩
  · intro hmem
    have huid : (create_watchlist st u1 payload fid now).1.user_id = u2 :=
      ((mem_list_watchlists _ _ _).1 hmem).2
    exact hne huid
  · intro v hv
    exact ((mem_list_watchlists _ _ _).1 hv).2
  · simp [update_watchlist, hw, hneq]
  · simp [update_watchlist, hw, hneq]
  · simp [delete_watchlist, hw, hneq]

/-- C1 witness: user 2 cannot see, modify, or delete the watchlist owned by user 1. -/
theorem create_update_delete_ownership_isolation_witness :
    (create_watchlist stEx 1 payloadEx 11 5).1 ∉
        list_watchlists (create_watchlist stEx 1 payloadEx 11 5).2 2
    ∧ (update_watchlist stEx 2 10 updEx 5).1 = Except.error (toString 10)
    ∧ (update_watchlist stEx 2 10 updEx 5).2 = stEx
    ∧ delete_watchlist stEx 2 10 = stEx := by
  have h := create_update_delete_ownership_isolation stEx 1 2 (by decide) payloadEx 11 5
    10 wOwned (by rfl) (by rfl) updEx
  exact ⟨h.1, h.2.2.1, h.2.2.2.1, h.2.2.2.2⟩

/-- C3 (partial-update law): updating an owned watchlist returns and stores a record in
which every field absent from the payload keeps its prior value, every field present in
the payload (explicit nulls included) is applied exactly, `updated_at` is set to the
current instant, and `id`, `user_id`, `created_at` are untouched. -/
theorem update_watchlist_partial_update_law
    (st : ProviderState) (u wid : Nat) (w : Watchlist) (p : WatchlistUpdate) (now : Int)
    (hw : dictGet wid st.watchlists = some w) (hown : w.user_id = u) :
    ∃ updated : Watchlist,
      (update_watchlist st u wid p now).1 = Except.ok updated
      ∧ dictGet wid (update_watchlist st u wid p now).2.watchlists = some updated
      ∧ (p.name = none → updated.name = w.name)
      ∧ (∀ v, p.name = some v → updated.name = v)
      ∧ (p.origin = none → updated.origin = w.origin)
      ∧ (∀ v, p.origin = some v → updated.origin = v)
      ∧ (p.destination = none → updated.destination = w.destination)
      ∧ (∀ v, p.destination = some v → updated.destination = v)
      ∧ (p.date_range_start = none → updated.date_range_start = w.date_range_start)
      ∧ (∀ v, p.date_range_start = some v → updated.date_range_start = v)
      ∧ (p.date_range_end = none → updated.date_range_end = w.date_range_end)
      ∧ (∀ v, p.date_range_end = some v → updated.date_range_end = v)
      ∧ (p.max_price = none → updated.max_price = w.max_price)
      ∧ (∀ v, p.max_price = some v → updated.max_price = v)
      ∧ (p.is_active = none → updated.is_active = w.is_active)
      ∧ (∀ v, p.is_active = some v → updated.is_active = v)
      ∧ updated.updated_at = now
      ∧ updated.id = w.id ∧ updated.user_id = w.user_id ∧ updated.created_at = w.created_at := by
  have hres : update_watchlist st u wid p now =
      (Except.ok (applyWatchlistUpdate w p now),
        { st with watchlists := dictSet wid (applyWatchlistUpdate w p now) st.watchlists }) := by
    simp [update_watchlist, hw, hown]
  refine ⟨applyWatchlistUpdate w p now, by rw [hres],
    by rw [hres]; exact dictGet_dictSet_self wid _ st.watchlists,
    ?_, ?_, ?_, ?_, ?_, ?_, ?_, ?_, ?_, ?_, ?_, ?_, ?_, ?_, rfl, rfl, rfl, rfl⟩ <;>
    (intros; simp_all [applyWatchlistUpdate])

/-- C3 witness: updating `wOwned` with `max_price := 700`, `is_active := false` keeps the
name and applies the present fields. -/
theorem update_watchlist_partial_update_law_witness :
    ∃ updated : Watchlist,
      (update_watchlist stEx 1 10 updEx 5).1 = Except.ok updated
      ∧ updated.name = wOwned.name
      ∧ updated.max_price = some 700
      ∧ updated.is_active = some false
      ∧ updated.updated_at = 5 := by
  obtain ⟨v, h1, _, h3, _, _, _, _, _, _, _, _, _, _, h14, _, h16, h17, _, _, _⟩ :=
    update_watchlist_partial_update_law stEx 1 10 wOwned updEx 5 (by rfl) (by rfl)
  exact ⟨v, h1, h3 rfl, h14 (some 700) rfl, h16 (some false) rfl, h17⟩

/-- C4 (NotFound iff and atomicity): `update_watchlist` raises `KeyError(str(id))` exactly
when no watchlist with that id owned by the caller exists — the absent case and the
owned-by-another-user case produce the identical error value — and in that case the
returned state is exactly the prior state. -/
theorem update_watchlist_notfound_iff
    (st : ProviderState) (u wid : Nat) (p : WatchlistUpdate) (now : Int) :
    ((update_watchlist st u wid p now).1 = Except.error (toString wid) ↔
      ownedLookup st u wid = none)
    ∧ (ownedLookup st u wid = none →
      update_watchlist st u wid p now = (Except.error (toString wid), st)) := by
  unfold update_watchlist ownedLookup
  cases h : dictGet wid st.watchlists with
  | none => simp
  | some w =>
    by_cases hu : w.user_id = u
    · simp [hu]
    · simp [hu]

/-- C4 witness: id 77 is absent from `stEx`, and the update on it returns the `KeyError`
signal with the state unchanged. -/
theorem update_watchlist_notfound_iff_witness :
    update_watchlist stEx 2 77 updEx 5 = (Except.error (toString 77), stEx) :=
  (update_watchlist_notfound_iff stEx 2 77 updEx 5).2 (by rfl)

/-- C5 (pagination law): for pages `p ≥ 1` and `k ≥ 1` items per page, the returned items
are exactly the slice `[(p-1)*k, p*k)` of the caller's alerts sorted by `sent_at`
descending (a stable permutation of the stored alerts), their number is
`min k (N - (p-1)*k)` — natural-number truncated subtraction, i.e. `min(k, max(0, N-(p-1)k))`
— and the returned total is the full count `N`, not the slice length. -/
theorem list_alert_history_pagination_law
    (st : ProviderState) (u : Nat) (p k : Nat) (hp : 1 ≤ p) (hk : 1 ≤ k) :
    (list_alert_history st u (p : Int) (k : Int)).1
        = ((sortDescBy (fun a => a.sent_at) ((dictGet u st.alerts).getD [])).drop
            ((p - 1) * k)).take k
    ∧ (list_alert_history st u (p : Int) (k : Int)).1.length
        = min k (((dictGet u st.alerts).getD []).length - (p - 1) * k)
    ∧ (list_alert_history st u (p : Int) (k : Int)).2
        = ((dictGet u st.alerts).getD []).length
    ∧ (sortDescBy (fun a => a.sent_at) ((dictGet u st.alerts).getD [])).Perm
        ((dictGet u st.alerts).getD [])
    ∧ (sortDescBy (fun a => a.sent_at) ((dictGet u st.alerts).getD [])).Pairwise
        (fun a b => b.sent_at ≤ a.sent_at) := by
  have hstart : ((p : Int) - 1) * (k : Int) = ((((p - 1) * k : Nat)) : Int) := by
    rw [Nat.cast_mul, Nat.cast_sub hp, Nat.cast_one]
  have h1 : (list_alert_history st u (p : Int) (k : Int)).1
      = ((sortDescBy (fun a => a.sent_at) ((dictGet u st.alerts).getD [])).drop
          ((p - 1) * k)).take k := by
    simp only [list_alert_history]
    rw [hstart, pySlice_natCast]
  refine ⟨h1, ?_, rfl, sortDescBy_perm _ _, sortDescBy_sorted _ _⟩
  rw [h1, List.length_take, List.length_drop, length_sortDescBy]

/-- C5 witness: user 7 has three alerts with send instants 5, 9, 1; page 2 with two items
per page returns only the oldest alert, one item, with total 3. -/
theorem list_alert_history_pagination_law_witness :
    (list_alert_history stAl 7 ((2 : Nat) : Int) ((2 : Nat) : Int)).1 = [aEx3]
    ∧ (list_alert_history stAl 7 ((2 : Nat) : Int) ((2 : Nat) : Int)).1.length = 1
    ∧ (list_alert_history stAl 7 ((2 : Nat) : Int) ((2 : Nat) : Int)).2 = 3 := by
  have h := list_alert_history_pagination_law stAl 7 2 2 (by decide) (by decide)
  exact ⟨h.1.trans (by decide), (h.2.1).trans (by decide), (h.2.2.1).trans (by decide)⟩

/-- C6 (delete idempotence): `delete_watchlist` is a total function — it succeeds whether
or not a matching user-owned watchlist exists — and running it a second time on the same
id leaves the state produced by the first call unchanged. -/
theorem delete_watchlist_idempotent (st : ProviderState) (u wid : Nat) :
    delete_watchlist (delete_watchlist st u wid) u wid = delete_watchlist st u wid := by
  rcases h : dictGet wid st.watchlists with _ | w
  · have h1 : delete_watchlist st u wid = st := by
      unfold delete_watchlist; rw [h]
    rw [h1]; exact h1
  · by_cases hu : w.user_id = u
    · have h1 : delete_watchlist st u wid =
          { st with watchlists := dictPop wid st.watchlists } := by
        simp [delete_watchlist, h, hu]
      rw [h1]
      simp [delete_watchlist, dictGet_dictPop_self]
    · have h1 : delete_watchlist st u wid = st := by
        simp [delete_watchlist, h, hu]
      rw [h1]; exact h1

/-- C7 (preferences round-trip and default-on-missing): an update immediately followed by
a read returns the stored record unchanged (the update also echoes it); and with no
stored record, the read returns the schema defaults — enabled, quiet hours 22 to 7,
watchlist_only_mode off — without creating a record (the read is a pure lookup; it
returns no successor state). -/
theorem alert_preferences_roundtrip_and_default
    (st : ProviderState) (u : Nat) (P : AlertPreferences) :
    get_alert_preferences (update_alert_preferences st u P).2 u = P
    ∧ (update_alert_preferences st u P).1 = P
    ∧ (dictGet u st.alert_preferences = none →
        get_alert_preferences st u = defaultAlertPreferences)
    ∧ defaultAlertPreferences.enabled = true
    ∧ defaultAlertPreferences.quiet_hours_enabled = true
    ∧ defaultAlertPreferences.quiet_hours_start = 22
    ∧ defaultAlertPreferences.quiet_hours_end = 7
    ∧ defaultAlertPreferences.watchlist_only_mode = false := by
  refine ⟨?_, rfl, ?_, rfl, rfl, rfl, rfl, rfl⟩
  · show (dictGet u (dictSet u P st.alert_preferences)).getD defaultAlertPreferences = P
    rw [dictGet_dictSet_self]
    rfl
  · intro hmissing
    show (dictGet u st.alert_preferences).getD defaultAlertPreferences
        = defaultAlertPreferences
    rw [hmissing]
    rfl

/-- C7 witness: updating user 3's preferences and reading them back returns them
unchanged both on the empty state and on a state already holding a record for user 3
(the upsert-overwrite case), and reading a user with no record returns the defaults. -/
theorem alert_preferences_roundtrip_and_default_witness :
    get_alert_preferences
        (update_alert_preferences (update_alert_preferences st0 3 prefsEx).2 3 prefsEx2).2 3
      = prefsEx2
    ∧ get_alert_preferences (update_alert_preferences st0 3 prefsEx).2 3 = prefsEx
    ∧ get_alert_preferences st0 3 = defaultAlertPreferences := by
  have h1 := alert_preferences_roundtrip_and_default
    (update_alert_preferences st0 3 prefsEx).2 3 prefsEx2
  have h2 := alert_preferences_roundtrip_and_default st0 3 prefsEx
  exact ⟨h1.1, h2.1, h2.2.2.1 (by rfl)⟩

/-- C8 counterexample: the in-memory `register_device_token` ignores the `platform`
argument completely — after a first registration with platform "ios", re-registering with
platform "android" produces exactly the provider state produced by re-registering with
any other platform string — so no stored platform exists to be overwritten, and (as the
state type shows) no last-active timestamp is touched either. -/
theorem register_device_token_ignores_platform :
    register_device_token (register_device_token stEx 1 2 ("t1") ("ios")) 1 2 ("t2") ("android")
      = register_device_token (register_device_token stEx 1 2 ("t1") ("ios")) 1 2 ("t2") ("web")
    ∧ register_device_token stEx 1 2 ("t1") ("ios")
      = register_device_token stEx 1 2 ("t1") ("android") :=
  ⟨rfl, rfl⟩

/-- C8 amended: `register_device_token` upserts keyed by the pair (user_id, device_id):
after registration the stored value under that pair is the token, and a re-registration
with a new token overwrites it in place without creating a second entry — neither the
per-user device map nor the outer per-user map gains a key. The in-memory backend stores
only the token; the platform argument and any last-active timestamp are not recorded
(that part of the claim holds only for the relational backend's SQL upsert). -/
theorem register_device_token_upsert
    (st : ProviderState) (u d : Nat) (t1 p1 t2 p2 : String) :
    dictGet d ((dictGet u (register_device_token st u d t1 p1).device_tokens).getD [])
        = some t1
    ∧ dictGet d ((dictGet u (register_device_token
          (register_device_token st u d t1 p1) u d t2 p2).device_tokens).getD [])
        = some t2
    ∧ dictKeys ((dictGet u (register_device_token
          (register_device_token st u d t1 p1) u d t2 p2).device_tokens).getD [])
        = dictKeys ((dictGet u (register_device_token st u d t1 p1).device_tokens).getD [])
    ∧ dictKeys (register_device_token
          (register_device_token st u d t1 p1) u d t2 p2).device_tokens
        = dictKeys (register_device_token st u d t1 p1).device_tokens := by
  have houter1 : (register_device_token st u d t1 p1).device_tokens
      = dictSet u (dictSet d t1 ((dictGet u st.device_tokens).getD [])) st.device_tokens :=
    rfl
  have hmap1 : dictGet u (register_device_token st u d t1 p1).device_tokens
      = some (dictSet d t1 ((dictGet u st.device_tokens).getD [])) := by
    rw [houter1]; exact dictGet_dictSet_self _ _ _
  refine ⟨?_, ?_, ?_, ?_⟩
  · rw [hmap1]
    exact dictGet_dictSet_self _ _ _
  · show dictGet d ((dictGet u (dictSet u
        (dictSet d t2 ((dictGet u (register_device_token st u d t1 p1).device_tokens).getD []))
        (register_device_token st u d t1 p1).device_tokens)).getD []) = some t2
    rw [dictGet_dictSet_self]
    show dictGet d (dictSet d t2
        ((dictGet u (register_device_token st u d t1 p1).device_tokens).getD [])) = some t2
    exact dictGet_dictSet_self _ _ _
  · show dictKeys ((dictGet u (dictSet u
        (dictSet d t2 ((dictGet u (register_device_token st u d t1 p1).device_tokens).getD []))
        (register_device_token st u d t1 p1).device_tokens)).getD [])
      = dictKeys ((dictGet u (register_device_token st u d t1 p1).device_tokens).getD [])
    rw [dictGet_dictSet_self]
    rw [hmap1]
    exact dictKeys_dictSet_dictSet d t1 t2 ((dictGet u st.device_tokens).getD [])
  · show dictKeys (dictSet u
        (dictSet d t2 ((dictGet u (register_device_token st u d t1 p1).device_tokens).getD []))
        (register_device_token st u d t1 p1).device_tokens)
      = dictKeys (register_device_token st u d t1 p1).device_tokens
    rw [houter1]
    exact dictKeys_dictSet_dictSet u _ _ st.device_tokens

/-- C9 counterexample: a request with page = 0 (below the claimed minimum of 1) is not
rejected with a 422 by the route layer — the provider is invoked with it — and likewise a
per_page of 1000 (above the claimed maximum of 100) reaches the provider. -/
theorem get_history_route_no_range_validation :
    get_history_route 0 20 = RouteAction.callProvider 0 20
    ∧ get_history_route 0 20 ≠ RouteAction.reject422
    ∧ get_history_route 1 1000 = RouteAction.callProvider 1 1000 := by
  refine ⟨rfl, ?_, rfl⟩
  decide

/-- C9 amended: the alert-history route performs no range validation at all — every
integer `page`/`per_page` pair is forwarded unchanged to `provider.list_alert_history`
(non-integer values are rejected earlier by FastAPI's type parsing, outside this layer) —
and, downstream, a page of 0 makes the in-memory provider return an empty slice together
with the user's full alert count, i.e. an HTTP-200 response rather than a 422. -/
theorem get_history_route_forwards_everything
    (page per_page : Int) (st : ProviderState) (u : Nat) :
    get_history_route page per_page = RouteAction.callProvider page per_page
    ∧ (list_alert_history st u 0 per_page).1 = []
    ∧ (list_alert_history st u 0 per_page).2 = ((dictGet u st.alerts).getD []).length := by
  refine ⟨rfl, ?_, rfl⟩
  show pySlice _ ((0 - 1) * per_page) ((0 - 1) * per_page + per_page) = []
  have hstop : (0 - 1) * per_page + per_page = 0 := by ring
  rw [hstop]
  exact pySlice_stop_zero _ _

/-- C10 (failing input): an update payload that explicitly sets `name` to null passes the
`WatchlistUpdate` schema, and `update_watchlist` accepts it and stores a watchlist whose
`name` is `None` — `model_copy` performs no validation — so the stored record violates
the `Watchlist` schema's required non-null `name : str`. -/
theorem update_watchlist_explicit_null_breaks_schema :
    (update_watchlist stEx 1 10 nullNameUpd 50).1
        = Except.ok (applyWatchlistUpdate wOwned nullNameUpd 50)
    ∧ (applyWatchlistUpdate wOwned nullNameUpd 50).name = none
    ∧ ¬ (applyWatchlistUpdate wOwned nullNameUpd 50).schemaValid
    ∧ dictGet 10 (update_watchlist stEx 1 10 nullNameUpd 50).2.watchlists
        = some (applyWatchlistUpdate wOwned nullNameUpd 50)
    ∧ wOwned.schemaValid := by
  refine ⟨rfl, rfl, ?_, ?_, ?_⟩
  · decide
  · exact dictGet_dictSet_self _ _ _
  · decide

/-- C2 (failing evaluation): `DataProvider` declares `get_user` and `update_user` as
abstract methods, and neither `InMemoryProvider` nor `SupabaseProvider` defines them, so
Python's ABC machinery leaves a non-empty abstract remainder on both classes and refuses
to instantiate either — the module-level `provider = InMemoryProvider()` in
`inmemory_provider.py` raises `TypeError` at import. -/
theorem provider_classes_not_instantiable :
    pythonAbstractRemaining dataProviderAbstractMethods inMemoryProviderMethods
        = ["get_user", "update_user"]
    ∧ pythonAbstractRemaining dataProviderAbstractMethods supabaseProviderMethods
        = ["get_user", "update_user"]
    ∧ pythonCanInstantiate dataProviderAbstractMethods inMemoryProviderMethods = false
    ∧ pythonCanInstantiate dataProviderAbstractMethods supabaseProviderMethods = false := by
  refine ⟨rfl, rfl, rfl, rfl⟩

end FareLens
